import Mathlib

/-!
# Verification of `app.py` (CSV Data Analysis - Compare Files with Charts)

Shallow embedding of the single source file `src/app.py`, a Streamlit
application.  Tables (`pandas.DataFrame`) are lists of rows over named
columns; one invocation of `main` models one rerun of the script with a
given session state, a given list of uploaded files and a given state of
every sidebar widget.  Widget results are modelled after their documented
behaviour: a selectbox returns the chosen option, the first option when
the stored choice is out of range, and `None` when the option list is
empty; a multiselect returns the (possibly empty) list of chosen values.
Calls into the UI framework that display something are recorded as a list
of events; an uncaught exception aborts the rerun and is recorded in the
`crashed` field together with the events emitted before it.
-/

namespace AQI

variable {α : Type} {β : Type}

/-- A `pandas` DataFrame: named columns and rows of cells.  A row is the
list of its cells in column order; a cell type `α` stands for the values
parsed out of a CSV file. -/
structure DataFrame (α : Type) where
  cols : List String
  rows : List (List α)
deriving DecidableEq

/-- The cell of `row` in column `c` of `df` (what `df[c]` reads in that
row): the entry of `row` at the position of `c` in `df.cols`, `none` when
the column is absent or the row is too short. -/
def cellOf (df : DataFrame α) (row : List α) (c : String) : Option α :=
  row.get? (df.cols.indexOf c)

/-- `df[column].unique()` (app.py line 34): the distinct values of the
column in first-occurrence order.  It only populates the multiselect
widget and is not used further. -/
def unique_values [DecidableEq α] (df : DataFrame α) (column : String) : List α :=
  (df.rows.filterMap fun row => cellOf df row column).dedup

/-- `filter_data` (app.py lines 33-39).  The multiselect result is passed
in as `filter_values`.  `if filter_values:` — with a non-empty selection
it returns `df[df[column].isin(filter_values)]`, the rows whose cell in
`column` is one of the selected values (a missing cell is never `isin` a
list); with the empty selection it returns `df` unchanged. -/
def filter_data [DecidableEq α] (df : DataFrame α) (column : String)
    (filter_values : List α) : DataFrame α :=
  if filter_values.isEmpty then df
  else
    { df with
      rows := df.rows.filter fun row =>
        match cellOf df row column with
        | some v => filter_values.contains v
        | none => false }

/-- `list(set(df1.columns).intersection(set(df2.columns)))` (app.py
line 46): the common column names, without duplicates.  Python iterates a
set in an unspecified order; the model fixes the first-occurrence order of
`df1.cols`, which has the same members. -/
def common_columns (df1 df2 : DataFrame α) : List String :=
  (df1.cols.filter fun c => df2.cols.contains c).dedup

/-- `df[cs]` for a list `cs` of column names (app.py lines 55 and 58):
the table restricted to those columns, every row projected to its cells
in the selected columns.  A cell is an `Option α` so that a selected
column missing from a row stays visible as `none`. -/
def project (df : DataFrame α) (cs : List String) : DataFrame (Option α) :=
  { cols := cs
    rows := df.rows.map fun row => cs.map fun c => cellOf df row c }

/-- The five chart kinds offered by the selectbox at app.py line 153. -/
inductive ChartType where
  | Bar
  | Line
  | Pie
  | Scatter
  | Histogram
deriving DecidableEq

/-- A call into one of the five chart helpers (app.py lines 61-83), each
a direct delegation to `plotly.express` followed by `st.plotly_chart`:
the table handed over and the column argument(s). -/
inductive ChartCall (α : Type) where
  | bar (df : DataFrame α) (x y : String)
  | line (df : DataFrame α) (x y : String)
  | pie (df : DataFrame α) (c : String)
  | scatter (df : DataFrame α) (x y : String)
  | histogram (df : DataFrame α) (c : String)
deriving DecidableEq

/-- One user-visible output of a rerun: the messages, tables and charts
the script writes to the page. -/
inductive Event (α : Type) where
  | placeholder
  | warnTooMany
  | loadSuccess (name : String)
  | loadError (name : String)
  | rawData (df : DataFrame α) (name : String)
  | dataTypes (df : DataFrame α) (name : String)
  | compareWarn
  | compareTables (t1 t2 : DataFrame (Option α))
  | chart (c : ChartCall α)
deriving DecidableEq

/-- `compare_dataframes` (app.py lines 42-58): intersect the column
names; warn and show nothing when the intersection is empty, otherwise
show both tables restricted to the common columns. -/
def compare_dataframes (df1 df2 : DataFrame α) : List (Event α) :=
  let common := common_columns df1 df2
  if common.isEmpty then [Event.compareWarn]
  else [Event.compareTables (project df1 common) (project df2 common)]

/-- `st.session_state` as used by app.py: the `file_loaded` flag
(lines 12, 18, 182, 188-189) and the stored `file_name` (line 13).  No
table is kept in session state. -/
structure SessionState where
  file_loaded : Bool
  file_name : Option String
deriving DecidableEq

/-- An uploaded file: its name and the outcome of `pd.read_csv` on it —
`some` table when parsing succeeds, `none` when it raises. -/
structure UploadedFile (α : Type) where
  name : String
  parsed : Option (DataFrame α)
deriving DecidableEq

/-- `load_data` (app.py lines 7-20): parse the file; on success set
`file_loaded := true`, store the name, show a success message and return
the table; on an exception set `file_loaded := false`, show an error
message and return `None`. -/
def load_data (st : SessionState) (file : UploadedFile α) :
    SessionState × Option (DataFrame α) × Event α :=
  match file.parsed with
  | some df =>
      ({ file_loaded := true, file_name := some file.name },
       some df, Event.loadSuccess file.name)
  | none =>
      ({ st with file_loaded := false }, none, Event.loadError file.name)

/-- The state of every sidebar widget during one rerun.  A `Nat` field is
the stored index of a selectbox / radio choice; a `Bool` field a
checkbox.  Bar, Line and Scatter share the X/Y selectboxes and Pie and
Histogram share the single-column selectbox, as in app.py lines 158-167. -/
structure UserInput (α : Type) where
  filterCol1 : Nat
  filterVals1 : List α
  filterCol2 : Nat
  filterVals2 : List α
  showRawData : Bool
  rawChoice : Nat
  showDataTypes : Bool
  typesChoice : Nat
  startComparison : Bool
  chartType : ChartType
  xColIdx : Nat
  yColIdx : Nat
  colIdx : Nat
deriving DecidableEq

/-- `st.sidebar.selectbox` / `st.sidebar.radio` over `options`: the
stored choice when still in range, otherwise the default first option;
`none` exactly when `options` is empty (documented Streamlit behaviour). -/
def selectbox (options : List β) (choice : Nat) : Option β :=
  match options.get? choice with
  | some v => some v
  | none => options.head?

/-- The uncaught exception that aborts a rerun.  `noTable`: `df1` is
`None` and `df1.columns` is read (app.py line 112, `AttributeError`).
`filterNoColumn`: the filter selectbox returned `None` for an empty
column list and `df[None]` raises (line 34, `KeyError`).
`chartNoColumn`: a chart helper was invoked with no column selected and
the plotting call raises (spec section 7: unselected chart columns are an
unguarded runtime error; the raise happens inside the library, the
absence of any guard is app.py lines 169-179). -/
inductive Crash where
  | noTable
  | filterNoColumn
  | chartNoColumn
deriving DecidableEq

/-- The outcome of one rerun of the script: the events written to the
page, the session state afterwards, and the uncaught exception, if any,
that aborted the rerun. -/
structure RunResult (α : Type) where
  events : List (Event α)
  state : SessionState
  crashed : Option Crash
deriving DecidableEq

/-- Chart selection and rendering (app.py lines 151-179): choose the
chart type, read the required column selectboxes over `columns` (the
first file's unfiltered column list, line 156), and call the matching
chart helper on `df1_filtered`.  `none` when a required column selectbox
has no selection: the call into the plotting library is unguarded and the
rerun aborts. -/
def chartSection (columns : List String) (df1_filtered : DataFrame α)
    (ui : UserInput α) : Option (ChartCall α) :=
  match ui.chartType with
  | ChartType.Bar =>
      match selectbox columns ui.xColIdx, selectbox columns ui.yColIdx with
      | some x, some y => some (ChartCall.bar df1_filtered x y)
      | _, _ => none
  | ChartType.Line =>
      match selectbox columns ui.xColIdx, selectbox columns ui.yColIdx with
      | some x, some y => some (ChartCall.line df1_filtered x y)
      | _, _ => none
  | ChartType.Pie =>
      (selectbox columns ui.colIdx).map fun c => ChartCall.pie df1_filtered c
  | ChartType.Scatter =>
      match selectbox columns ui.xColIdx, selectbox columns ui.yColIdx with
      | some x, some y => some (ChartCall.scatter df1_filtered x y)
      | _, _ => none
  | ChartType.Histogram =>
      (selectbox columns ui.colIdx).map fun c => ChartCall.histogram df1_filtered c

/-- The "Show Raw Data" section (app.py lines 120, 123-132): with two
files a radio picks which filtered table to show, compared against the
file names in order; with one file the first filtered table is shown. -/
def rawDataEvents (df1f : DataFrame α) (df2f : Option (DataFrame α))
    (names : List String) (ui : UserInput α) : List (Event α) :=
  if ui.showRawData then
    match df2f with
    | some d2 =>
        match selectbox names ui.rawChoice with
        | some n =>
            if names.get? 0 = some n then [Event.rawData df1f n]
            else if names.get? 1 = some n then [Event.rawData d2 n]
            else []
        | none => []
    | none => [Event.rawData df1f (names.headD "File")]
  else []

/-- The "Show Data Types Information" section (app.py lines 121,
134-143), structured exactly like the raw-data section. -/
def dataTypesEvents (df1f : DataFrame α) (df2f : Option (DataFrame α))
    (names : List String) (ui : UserInput α) : List (Event α) :=
  if ui.showDataTypes then
    match df2f with
    | some d2 =>
        match selectbox names ui.typesChoice with
        | some n =>
            if names.get? 0 = some n then [Event.dataTypes df1f n]
            else if names.get? 1 = some n then [Event.dataTypes d2 n]
            else []
        | none => []
    | none => [Event.dataTypes df1f (names.headD "File")]
  else []

/-- The comparison section (app.py lines 145-149): only with a second
filtered table present and the "Start File Comparison" checkbox ticked is
`compare_dataframes` called. -/
def compareEvents (df1f : DataFrame α) (df2f : Option (DataFrame α))
    (ui : UserInput α) : List (Event α) :=
  match df2f with
  | some d2 => if ui.startComparison then compare_dataframes df1f d2 else []
  | none => []

/-- app.py lines 119-179 once the filtered tables exist: raw data, data
types, the optional comparison, then the chart section.  A `none` from
the chart section aborts the rerun after the earlier events were already
written. -/
def displayAndChart [DecidableEq α] (st : SessionState) (evs : List (Event α))
    (df1 df1f : DataFrame α) (df2f : Option (DataFrame α))
    (names : List String) (ui : UserInput α) : RunResult α :=
  let evs2 := evs ++ rawDataEvents df1f df2f names ui
      ++ dataTypesEvents df1f df2f names ui
      ++ compareEvents df1f df2f ui
  match chartSection df1.cols df1f ui with
  | some c => ⟨evs2 ++ [Event.chart c], st, none⟩
  | none => ⟨evs2, st, some Crash.chartNoColumn⟩

/-- app.py lines 108-179 after loading: read the filter selectbox over
`df1.columns` (line 112 — an `AttributeError` when `df1` is `None`),
filter `df1`, do the same for `df2` when present (lines 115-117), then
display and chart.  A selectbox with no selection makes `filter_data`
raise on `df[None]`. -/
def afterLoad [DecidableEq α] (st : SessionState) (evs : List (Event α))
    (df1 df2 : Option (DataFrame α)) (names : List String)
    (ui : UserInput α) : RunResult α :=
  match df1 with
  | none => ⟨evs, st, some Crash.noTable⟩
  | some d1 =>
      match selectbox d1.cols ui.filterCol1 with
      | none => ⟨evs, st, some Crash.filterNoColumn⟩
      | some fc1 =>
          let df1f := filter_data d1 fc1 ui.filterVals1
          match df2 with
          | some d2 =>
              match selectbox d2.cols ui.filterCol2 with
              | none => ⟨evs, st, some Crash.filterNoColumn⟩
              | some fc2 =>
                  displayAndChart st evs d1 df1f
                    (some (filter_data d2 fc2 ui.filterVals2)) names ui
          | none => displayAndChart st evs d1 df1f none names ui

/-- `main` (app.py lines 85-185), one rerun: with no files show the
placeholder unless a file was already marked loaded (lines 181-185); with
one file load it (no second table); with two files load both; with more
warn and return (lines 104-106).  Loading happens on every rerun that has
files — the script never reads a table back from session state. -/
def main [DecidableEq α] (st : SessionState) (files : List (UploadedFile α))
    (ui : UserInput α) : RunResult α :=
  match files with
  | [] =>
      ⟨if st.file_loaded then [] else [Event.placeholder], st, none⟩
  | [f1] =>
      match load_data st f1 with
      | (st1, df1, ev1) => afterLoad st1 [ev1] df1 none [f1.name] ui
  | [f1, f2] =>
      match load_data st f1 with
      | (st1, df1, ev1) =>
          match load_data st1 f2 with
          | (st2, df2, ev2) =>
              afterLoad st2 [ev1, ev2] df1 df2 [f1.name, f2.name] ui
  | _ => ⟨[Event.warnTooMany], st, none⟩

/-- The chart kind a chart call belongs to. -/
def chartKind : ChartCall α → ChartType
  | ChartCall.bar _ _ _ => ChartType.Bar
  | ChartCall.line _ _ _ => ChartType.Line
  | ChartCall.pie _ _ => ChartType.Pie
  | ChartCall.scatter _ _ _ => ChartType.Scatter
  | ChartCall.histogram _ _ => ChartType.Histogram

/-- The table a chart call renders. -/
def chartDF : ChartCall α → DataFrame α
  | ChartCall.bar df _ _ => df
  | ChartCall.line df _ _ => df
  | ChartCall.pie df _ => df
  | ChartCall.scatter df _ _ => df
  | ChartCall.histogram df _ => df

/-- The column arguments of a chart call, in order. -/
def chartCols : ChartCall α → List String
  | ChartCall.bar _ x y => [x, y]
  | ChartCall.line _ x y => [x, y]
  | ChartCall.pie _ c => [c]
  | ChartCall.scatter _ x y => [x, y]
  | ChartCall.histogram _ c => [c]

/-- How many column arguments each chart kind requires: two for Bar,
Line and Scatter, one for Pie and Histogram. -/
def chartArity : ChartType → Nat
  | ChartType.Bar => 2
  | ChartType.Line => 2
  | ChartType.Pie => 1
  | ChartType.Scatter => 2
  | ChartType.Histogram => 1

/-- The chart calls among a list of events, in order. -/
def chartEventsL (evs : List (Event α)) : List (ChartCall α) :=
  evs.filterMap fun e =>
    match e with
    | Event.chart c => some c
    | _ => none

/-- The chart calls a rerun rendered. -/
def chartEvents (r : RunResult α) : List (ChartCall α) :=
  chartEventsL r.events

/-- Whether an event witnesses a parse attempt: `load_data` shows either
a success or an error message every time it runs `pd.read_csv`. -/
def isLoadEvent : Event α → Bool
  | Event.loadSuccess _ => true
  | Event.loadError _ => true
  | _ => false

/-- The number of parse attempts recorded in a list of events. -/
def loadCountL (evs : List (Event α)) : Nat :=
  (evs.filter fun e => isLoadEvent e).length

/-- The number of times a rerun parsed an uploaded file. -/
def parseCount (r : RunResult α) : Nat :=
  loadCountL r.events

/-- The runs C4 quantifies over: one or two uploaded files, the first
parsing into a table (a table parsed out of a CSV always has at least one
column), the second either failing to parse (then `df2` is `None` and the
run degrades to the single-file flow) or parsing into a table as well. -/
def goodFiles (files : List (UploadedFile α)) : Prop :=
  match files with
  | [f1] => ∃ d1, f1.parsed = some d1 ∧ d1.cols ≠ []
  | [f1, f2] =>
      (∃ d1, f1.parsed = some d1 ∧ d1.cols ≠ []) ∧
      (f2.parsed = none ∨ ∃ d2, f2.parsed = some d2 ∧ d2.cols ≠ [])
  | _ => False

/-- A concrete table used by the witnesses: columns `city`, `aqi`. -/
def dfW : DataFrame Nat :=
  { cols := ["city", "aqi"], rows := [[1, 80], [2, 95], [1, 60]] }

/-- A second concrete table sharing the column `aqi` with `dfW`. -/
def dfW2 : DataFrame Nat :=
  { cols := ["aqi", "pm25"], rows := [[70, 12]] }

/-- A concrete table with no column shared with `dfW`. -/
def dfW3 : DataFrame Nat :=
  { cols := ["pm10"], rows := [[33]] }

/-- A table with no columns, as used by the C7 theorem. -/
def dfEmpty : DataFrame Nat :=
  { cols := [], rows := [] }

/-- A concrete file that parses into `dfW`. -/
def fileW : UploadedFile Nat := { name := "aqi.csv", parsed := some dfW }

/-- A concrete file that parses into `dfW2`. -/
def fileW2 : UploadedFile Nat := { name := "aqi2.csv", parsed := some dfW2 }

/-- A concrete file whose parse fails. -/
def fileBad : UploadedFile Nat := { name := "bad.csv", parsed := none }

/-- A concrete widget state used by the witnesses. -/
def uiW : UserInput Nat :=
  { filterCol1 := 0, filterVals1 := [], filterCol2 := 0, filterVals2 := []
    showRawData := false, rawChoice := 0, showDataTypes := false, typesChoice := 0
    startComparison := false, chartType := ChartType.Bar
    xColIdx := 0, yColIdx := 1, colIdx := 0 }

/-! ## Helper lemmas -/

/-- A selectbox over a non-empty option list always has a selection. -/
theorem selectbox_eq_some (options : List β) (i : Nat) (h : options ≠ []) :
    ∃ v, selectbox options i = some v := by
  unfold selectbox
  cases hg : options.get? i with
  | some v => exact ⟨v, rfl⟩
  | none =>
      cases options with
      | nil => exact absurd rfl h
      | cons a l => exact ⟨a, rfl⟩

/-- A selectbox selection is one of its options. -/
theorem selectbox_mem {options : List β} {i : Nat} {v : β}
    (h : selectbox options i = some v) : v ∈ options := by
  unfold selectbox at h
  cases hg : options.get? i with
  | some w => rw [hg] at h; exact List.get?_mem (hg.trans h)
  | none => rw [hg] at h; exact List.mem_of_mem_head? (Option.mem_def.mpr h)

/-- A selectbox only returns a selection when it has options. -/
theorem selectbox_some_ne_nil {options : List β} {i : Nat} {v : β}
    (h : selectbox options i = some v) : options ≠ [] := by
  intro hnil
  subst hnil
  simp [selectbox] at h

/-- Membership in the common columns is membership in both column lists. -/
theorem mem_common_columns (df1 df2 : DataFrame α) (c : String) :
    c ∈ common_columns df1 df2 ↔ (c ∈ df1.cols ∧ c ∈ df2.cols) := by
  simp [common_columns, List.mem_dedup, List.mem_filter]

/-- Row `i` of a projection holds, at the position of each selected
column `c`, exactly the cell of row `i` of the source in column `c`. -/
theorem project_cell (df : DataFrame α) (cs : List String) (i : Nat)
    (r : List α) (pr : List (Option α)) (h1 : df.rows.get? i = some r)
    (h2 : (project df cs).rows.get? i = some pr) {c : String} (hc : c ∈ cs) :
    pr.get? (cs.indexOf c) = some (cellOf df r c) := by
  have hmap : (project df cs).rows.get? i
      = Option.map (fun row => cs.map fun c0 => cellOf df row c0) (df.rows.get? i) := by
    simp [project, List.get?_map]
  rw [h1, h2] at hmap
  have hpr : pr = cs.map fun c0 => cellOf df r c0 := by
    simpa using hmap
  subst hpr
  rw [List.get?_map, List.indexOf_get? hc]
  rfl

/-! ## Claims -/

/-- C1: for every table and chosen column, filtering with the empty
selection returns the table unchanged; filtering with a non-empty
selection keeps exactly the rows whose cell in that column is one of the
selected values. -/
theorem filter_data_spec [DecidableEq α] (df : DataFrame α) (column : String)
    (vs : List α) :
    filter_data df column [] = df ∧
    (vs ≠ [] → ∀ r, r ∈ (filter_data df column vs).rows ↔
      (r ∈ df.rows ∧ ∃ v, cellOf df r column = some v ∧ v ∈ vs)) := by
  constructor
  · simp [filter_data]
  · intro hvs r
    have hne : vs.isEmpty = false := List.isEmpty_eq_false.mpr hvs
    simp only [filter_data, hne, Bool.false_eq_true, if_false, List.mem_filter]
    constructor
    · rintro ⟨hr, hp⟩
      refine ⟨hr, ?_⟩
      cases hcell : cellOf df r column with
      | some v =>
          rw [hcell] at hp
          exact ⟨v, rfl, by simpa using hp⟩
      | none => rw [hcell] at hp; exact absurd hp (by simp)
    · rintro ⟨hr, v, hcell, hv⟩
      exact ⟨hr, by simp [hcell, hv]⟩

/-- Witness for C1 on a concrete table: the empty selection is the
identity and the row `[1, 80]` is kept by the selection `{1}` on column
`city` exactly because its `city` cell is `1`. -/
theorem filter_data_spec_witness :
    filter_data dfW "city" ([] : List Nat) = dfW ∧
    ([1, 80] ∈ (filter_data dfW "city" [1]).rows ↔
      ([1, 80] ∈ dfW.rows ∧ ∃ v, cellOf dfW [1, 80] "city" = some v ∧ v ∈ [1])) :=
  ⟨(filter_data_spec dfW "city" [1]).1,
   (filter_data_spec dfW "city" [1]).2 (by decide) [1, 80]⟩

/-- C8: filtering keeps exactly the columns of the input, and its rows
are a sublist of the input rows — a subsequence in the original relative
order, so no row is reordered, duplicated, added or modified. -/
theorem filter_data_frame [DecidableEq α] (df : DataFrame α) (column : String)
    (vs : List α) :
    (filter_data df column vs).cols = df.cols ∧
    (filter_data df column vs).rows.Sublist df.rows := by
  unfold filter_data
  split
  · exact ⟨rfl, List.Sublist.refl _⟩
  · exact ⟨rfl, List.filter_sublist _⟩

/-- C2: comparing intersects the column-name sets; an empty intersection
yields the warning and no data; otherwise both tables are shown projected
to exactly the shared columns, with row counts unchanged and every
projected cell equal to the source cell. -/
theorem compare_dataframes_spec (df1 df2 : DataFrame α) :
    (∀ c, c ∈ common_columns df1 df2 ↔ (c ∈ df1.cols ∧ c ∈ df2.cols)) ∧
    (common_columns df1 df2 = [] →
      compare_dataframes df1 df2 = [Event.compareWarn]) ∧
    (common_columns df1 df2 ≠ [] →
      ∃ t1 t2, compare_dataframes df1 df2 = [Event.compareTables t1 t2] ∧
        t1.cols = common_columns df1 df2 ∧ t2.cols = common_columns df1 df2 ∧
        t1.rows.length = df1.rows.length ∧ t2.rows.length = df2.rows.length ∧
        (∀ i r pr, df1.rows.get? i = some r → t1.rows.get? i = some pr →
          ∀ c ∈ common_columns df1 df2,
            pr.get? ((common_columns df1 df2).indexOf c) = some (cellOf df1 r c)) ∧
        (∀ i r pr, df2.rows.get? i = some r → t2.rows.get? i = some pr →
          ∀ c ∈ common_columns df1 df2,
            pr.get? ((common_columns df1 df2).indexOf c) = some (cellOf df2 r c))) := by
  refine ⟨mem_common_columns df1 df2, ?_, ?_⟩
  · intro h
    simp [compare_dataframes, List.isEmpty_iff, h]
  · intro h
    have hne : (common_columns df1 df2).isEmpty = false := List.isEmpty_eq_false.mpr h
    refine ⟨project df1 (common_columns df1 df2), project df2 (common_columns df1 df2),
      ?_, rfl, rfl, by simp [project], by simp [project], ?_, ?_⟩
    · simp [compare_dataframes, hne]
    · intro i r pr h1 h2 c hc
      exact project_cell df1 (common_columns df1 df2) i r pr h1 h2 hc
    · intro i r pr h1 h2 c hc
      exact project_cell df2 (common_columns df1 df2) i r pr h1 h2 hc

/-- Witness for C2 on concrete tables: `dfW` and `dfW3` share no column
and produce the warning; `dfW` and `dfW2` share exactly `aqi` and are
shown projected to it. -/
theorem compare_dataframes_spec_witness :
    compare_dataframes dfW dfW3 = [Event.compareWarn] ∧
    ∃ t1 t2, compare_dataframes dfW dfW2 = [Event.compareTables t1 t2] ∧
      t1.cols = common_columns dfW dfW2 ∧ t2.cols = common_columns dfW dfW2 ∧
      t1.rows.length = dfW.rows.length ∧ t2.rows.length = dfW2.rows.length := by
  constructor
  · exact (compare_dataframes_spec dfW dfW3).2.1 (by decide)
  · obtain ⟨t1, t2, he, hc1, hc2, hl1, hl2, -, -⟩ :=
      (compare_dataframes_spec dfW dfW2).2.2 (by decide)
    exact ⟨t1, t2, he, hc1, hc2, hl1, hl2⟩

/-- C9: `load_data` returns a table exactly when it sets the session
flag `file_loaded`; on a parse failure it returns `None` and sets the
flag to `false`, so the flag reflects the outcome of the most recent
load attempt. -/
theorem load_data_flag (st : SessionState) (f : UploadedFile α) :
    ((load_data st f).2.1.isSome ↔ (load_data st f).1.file_loaded = true) ∧
    (f.parsed = none →
      (load_data st f).2.1 = none ∧ (load_data st f).1.file_loaded = false) := by
  cases h : f.parsed with
  | some d => simp [load_data, h]
  | none => simp [load_data, h]

/-- Witness for C9: loading the failing file `fileBad` returns no table
and resets the flag, even from a state where it was `true`. -/
theorem load_data_flag_witness :
    (load_data (SessionState.mk true (some "aqi.csv")) fileBad).2.1 = none ∧
    (load_data (SessionState.mk true (some "aqi.csv")) fileBad).1.file_loaded = false :=
  (load_data_flag (SessionState.mk true (some "aqi.csv")) fileBad).2 rfl

/-! ## Shape of the display sections -/

/-- The raw-data section shows nothing or exactly one table. -/
theorem rawDataEvents_shape (df1f : DataFrame α) (df2f : Option (DataFrame α))
    (names : List String) (ui : UserInput α) :
    rawDataEvents df1f df2f names ui = [] ∨
    ∃ d n, rawDataEvents df1f df2f names ui = [Event.rawData d n] := by
  unfold rawDataEvents
  repeat' split
  all_goals first
    | exact Or.inl rfl
    | exact Or.inr ⟨_, _, rfl⟩

/-- The data-types section shows nothing or exactly one table. -/
theorem dataTypesEvents_shape (df1f : DataFrame α) (df2f : Option (DataFrame α))
    (names : List String) (ui : UserInput α) :
    dataTypesEvents df1f df2f names ui = [] ∨
    ∃ d n, dataTypesEvents df1f df2f names ui = [Event.dataTypes d n] := by
  unfold dataTypesEvents
  repeat' split
  all_goals first
    | exact Or.inl rfl
    | exact Or.inr ⟨_, _, rfl⟩

/-- The comparison section shows nothing, the warning, or one pair of
projected tables. -/
theorem compareEvents_shape (df1f : DataFrame α) (df2f : Option (DataFrame α))
    (ui : UserInput α) :
    compareEvents df1f df2f ui = [] ∨
    compareEvents df1f df2f ui = [Event.compareWarn] ∨
    ∃ t1 t2, compareEvents df1f df2f ui = [Event.compareTables t1 t2] := by
  unfold compareEvents
  repeat' split
  all_goals first
    | exact Or.inl rfl
    | (simp only [compare_dataframes]
       split
       · exact Or.inr (Or.inl rfl)
       · exact Or.inr (Or.inr ⟨_, _, rfl⟩))

/-! ## Counting parse attempts and chart calls -/

theorem loadCountL_append (a b : List (Event α)) :
    loadCountL (a ++ b) = loadCountL a + loadCountL b := by
  simp [loadCountL, List.filter_append]

theorem chartEventsL_append (a b : List (Event α)) :
    chartEventsL (a ++ b) = chartEventsL a ++ chartEventsL b := by
  simp [chartEventsL, List.filterMap_append]

theorem loadCountL_rawDataEvents (df1f : DataFrame α) (df2f : Option (DataFrame α))
    (names : List String) (ui : UserInput α) :
    loadCountL (rawDataEvents df1f df2f names ui) = 0 := by
  rcases rawDataEvents_shape df1f df2f names ui with hsh | ⟨d, n, hsh⟩ <;> rw [hsh] <;> rfl

theorem loadCountL_dataTypesEvents (df1f : DataFrame α) (df2f : Option (DataFrame α))
    (names : List String) (ui : UserInput α) :
    loadCountL (dataTypesEvents df1f df2f names ui) = 0 := by
  rcases dataTypesEvents_shape df1f df2f names ui with hsh | ⟨d, n, hsh⟩ <;> rw [hsh] <;> rfl

theorem loadCountL_compareEvents (df1f : DataFrame α) (df2f : Option (DataFrame α))
    (ui : UserInput α) :
    loadCountL (compareEvents df1f df2f ui) = 0 := by
  rcases compareEvents_shape df1f df2f ui with hsh | hsh | ⟨t1, t2, hsh⟩ <;> rw [hsh] <;> rfl

theorem chartEventsL_rawDataEvents (df1f : DataFrame α) (df2f : Option (DataFrame α))
    (names : List String) (ui : UserInput α) :
    chartEventsL (rawDataEvents df1f df2f names ui) = [] := by
  rcases rawDataEvents_shape df1f df2f names ui with hsh | ⟨d, n, hsh⟩ <;> rw [hsh] <;> rfl

theorem chartEventsL_dataTypesEvents (df1f : DataFrame α) (df2f : Option (DataFrame α))
    (names : List String) (ui : UserInput α) :
    chartEventsL (dataTypesEvents df1f df2f names ui) = [] := by
  rcases dataTypesEvents_shape df1f df2f names ui with hsh | ⟨d, n, hsh⟩ <;> rw [hsh] <;> rfl

theorem chartEventsL_compareEvents (df1f : DataFrame α) (df2f : Option (DataFrame α))
    (ui : UserInput α) :
    chartEventsL (compareEvents df1f df2f ui) = [] := by
  rcases compareEvents_shape df1f df2f ui with hsh | hsh | ⟨t1, t2, hsh⟩ <;> rw [hsh] <;> rfl

/-- `displayAndChart` when the chart section produced a call. -/
theorem displayAndChart_eq_of_chart [DecidableEq α] (st : SessionState)
    (evs : List (Event α)) (df1 df1f : DataFrame α) (df2f : Option (DataFrame α))
    (names : List String) (ui : UserInput α) (c : ChartCall α)
    (hcs : chartSection df1.cols df1f ui = some c) :
    displayAndChart st evs df1 df1f df2f names ui
      = ⟨evs ++ rawDataEvents df1f df2f names ui ++ dataTypesEvents df1f df2f names ui
          ++ compareEvents df1f df2f ui ++ [Event.chart c], st, none⟩ := by
  unfold displayAndChart
  rw [hcs]

/-- `displayAndChart` when the chart section found no column selected. -/
theorem displayAndChart_eq_of_none [DecidableEq α] (st : SessionState)
    (evs : List (Event α)) (df1 df1f : DataFrame α) (df2f : Option (DataFrame α))
    (names : List String) (ui : UserInput α)
    (hcs : chartSection df1.cols df1f ui = none) :
    displayAndChart st evs df1 df1f df2f names ui
      = ⟨evs ++ rawDataEvents df1f df2f names ui ++ dataTypesEvents df1f df2f names ui
          ++ compareEvents df1f df2f ui, st, some Crash.chartNoColumn⟩ := by
  unfold displayAndChart
  rw [hcs]

/-- The display-and-chart part of a run never parses a file. -/
theorem displayAndChart_parseCount [DecidableEq α] (st : SessionState)
    (evs : List (Event α)) (df1 df1f : DataFrame α) (df2f : Option (DataFrame α))
    (names : List String) (ui : UserInput α) :
    parseCount (displayAndChart st evs df1 df1f df2f names ui) = loadCountL evs := by
  cases hcs : chartSection df1.cols df1f ui with
  | some c =>
      rw [displayAndChart_eq_of_chart st evs df1 df1f df2f names ui c hcs]
      show loadCountL _ = loadCountL evs
      simp only [loadCountL_append, loadCountL_rawDataEvents, loadCountL_dataTypesEvents,
        loadCountL_compareEvents, Nat.add_zero]
      rfl
  | none =>
      rw [displayAndChart_eq_of_none st evs df1 df1f df2f names ui hcs]
      show loadCountL _ = loadCountL evs
      simp only [loadCountL_append, loadCountL_rawDataEvents, loadCountL_dataTypesEvents,
        loadCountL_compareEvents, Nat.add_zero]

/-- The chart call the display-and-chart part renders is the single
chart of its events. -/
theorem displayAndChart_chartEvents [DecidableEq α] (st : SessionState)
    (evs : List (Event α)) (df1 df1f : DataFrame α) (df2f : Option (DataFrame α))
    (names : List String) (ui : UserInput α) (c : ChartCall α)
    (hevs : chartEventsL evs = []) (hcs : chartSection df1.cols df1f ui = some c) :
    chartEvents (displayAndChart st evs df1 df1f df2f names ui) = [c] := by
  rw [chartEvents, displayAndChart_eq_of_chart st evs df1 df1f df2f names ui c hcs]
  show chartEventsL _ = [c]
  simp only [chartEventsL_append, hevs, chartEventsL_rawDataEvents,
    chartEventsL_dataTypesEvents, chartEventsL_compareEvents, List.append_nil,
    List.nil_append]
  rfl

/-- The whole post-load part of a run never parses a file: all parse
attempts of a rerun happen in the loading phase. -/
theorem afterLoad_parseCount [DecidableEq α] (st : SessionState)
    (evs : List (Event α)) (df1 df2 : Option (DataFrame α)) (names : List String)
    (ui : UserInput α) :
    parseCount (afterLoad st evs df1 df2 names ui) = loadCountL evs := by
  cases df1 with
  | none => rfl
  | some d1 =>
      cases h1 : selectbox d1.cols ui.filterCol1 with
      | none => simp only [afterLoad, h1]; rfl
      | some fc1 =>
          cases df2 with
          | none =>
              simp only [afterLoad, h1]
              exact displayAndChart_parseCount st evs d1
                (filter_data d1 fc1 ui.filterVals1) none names ui
          | some d2 =>
              cases h2 : selectbox d2.cols ui.filterCol2 with
              | none => simp only [afterLoad, h1, h2]; rfl
              | some fc2 =>
                  simp only [afterLoad, h1, h2]
                  exact displayAndChart_parseCount st evs d1
                    (filter_data d1 fc1 ui.filterVals1)
                    (some (filter_data d2 fc2 ui.filterVals2)) names ui

/-! ## The chart section always renders one chart of the selected kind -/

/-- Over a non-empty column list the chart section produces exactly one
chart call: of the selected kind, over the table it was given, with two
column arguments for Bar, Line and Scatter and one for Pie and
Histogram, all drawn from the offered column list. -/
theorem chartSection_spec [DecidableEq α] (cols : List String) (df : DataFrame α)
    (ui : UserInput α) (h : cols ≠ []) :
    ∃ c, chartSection cols df ui = some c ∧ chartKind c = ui.chartType ∧
      chartDF c = df ∧ (chartCols c).length = chartArity ui.chartType ∧
      ∀ s ∈ chartCols c, s ∈ cols := by
  obtain ⟨x, hx⟩ := selectbox_eq_some cols ui.xColIdx h
  obtain ⟨y, hy⟩ := selectbox_eq_some cols ui.yColIdx h
  obtain ⟨z, hz⟩ := selectbox_eq_some cols ui.colIdx h
  have hxm := selectbox_mem hx
  have hym := selectbox_mem hy
  have hzm := selectbox_mem hz
  cases hct : ui.chartType with
  | Bar =>
      refine ⟨ChartCall.bar df x y, by simp [chartSection, hct, hx, hy], rfl, rfl, rfl, ?_⟩
      intro s hs
      simp only [chartCols, List.mem_cons, List.not_mem_nil, or_false] at hs
      rcases hs with rfl | rfl
      · exact hxm
      · exact hym
  | Line =>
      refine ⟨ChartCall.line df x y, by simp [chartSection, hct, hx, hy], rfl, rfl, rfl, ?_⟩
      intro s hs
      simp only [chartCols, List.mem_cons, List.not_mem_nil, or_false] at hs
      rcases hs with rfl | rfl
      · exact hxm
      · exact hym
  | Pie =>
      refine ⟨ChartCall.pie df z, by simp [chartSection, hct, hz], rfl, rfl, rfl, ?_⟩
      intro s hs
      simp only [chartCols, List.mem_cons, List.not_mem_nil, or_false] at hs
      rcases hs with rfl
      exact hzm
  | Scatter =>
      refine ⟨ChartCall.scatter df x y, by simp [chartSection, hct, hx, hy], rfl, rfl, rfl, ?_⟩
      intro s hs
      simp only [chartCols, List.mem_cons, List.not_mem_nil, or_false] at hs
      rcases hs with rfl | rfl
      · exact hxm
      · exact hym
  | Histogram =>
      refine ⟨ChartCall.histogram df z, by simp [chartSection, hct, hz], rfl, rfl, rfl, ?_⟩
      intro s hs
      simp only [chartCols, List.mem_cons, List.not_mem_nil, or_false] at hs
      rcases hs with rfl
      exact hzm

/-- After a successful first load with a non-empty column list (and a
second table that is absent or also has columns), the run renders
exactly one chart: of the selected kind, over the first file's filtered
table, with its columns drawn from the first file's column list. -/
theorem afterLoad_chart [DecidableEq α] (st : SessionState) (evs : List (Event α))
    (d1 : DataFrame α) (df2 : Option (DataFrame α)) (names : List String)
    (ui : UserInput α) (hevs : chartEventsL evs = []) (hc1 : d1.cols ≠ [])
    (hdf2 : df2 = none ∨ ∃ d2, df2 = some d2 ∧ d2.cols ≠ []) :
    ∃ fc1 c, selectbox d1.cols ui.filterCol1 = some fc1 ∧
      chartEvents (afterLoad st evs (some d1) df2 names ui) = [c] ∧
      chartKind c = ui.chartType ∧
      chartDF c = filter_data d1 fc1 ui.filterVals1 ∧
      (chartCols c).length = chartArity ui.chartType ∧
      ∀ s ∈ chartCols c, s ∈ d1.cols := by
  obtain ⟨fc1, hfc1⟩ := selectbox_eq_some d1.cols ui.filterCol1 hc1
  obtain ⟨c, hcs, hkind, hdf, hlen, hmem⟩ :=
    chartSection_spec d1.cols (filter_data d1 fc1 ui.filterVals1) ui hc1
  refine ⟨fc1, c, hfc1, ?_, hkind, hdf, hlen, hmem⟩
  rcases hdf2 with rfl | ⟨d2, rfl, hc2⟩
  · simp only [afterLoad, hfc1]
    exact displayAndChart_chartEvents st evs d1
      (filter_data d1 fc1 ui.filterVals1) none names ui c hevs hcs
  · obtain ⟨fc2, hfc2⟩ := selectbox_eq_some d2.cols ui.filterCol2 hc2
    simp only [afterLoad, hfc1, hfc2]
    exact displayAndChart_chartEvents st evs d1
      (filter_data d1 fc1 ui.filterVals1)
      (some (filter_data d2 fc2 ui.filterVals2)) names ui c hevs hcs

/-- No branch of the post-load control flow aborts at the chart
dispatch: whenever the first table's column list is empty the filter
section aborts the rerun first, and otherwise the chart section always
finds its columns. -/
theorem afterLoad_crashed_ne_chart [DecidableEq α] (st : SessionState)
    (evs : List (Event α)) (df1 df2 : Option (DataFrame α))
    (names : List String) (ui : UserInput α) :
    (afterLoad st evs df1 df2 names ui).crashed ≠ some Crash.chartNoColumn := by
  cases df1 with
  | none => simp [afterLoad]
  | some d1 =>
      cases h1 : selectbox d1.cols ui.filterCol1 with
      | none => simp [afterLoad, h1]
      | some fc1 =>
          obtain ⟨c, hcs, -, -, -, -⟩ :=
            chartSection_spec d1.cols (filter_data d1 fc1 ui.filterVals1) ui
              (selectbox_some_ne_nil h1)
          cases df2 with
          | none =>
              simp only [afterLoad, h1]
              rw [displayAndChart_eq_of_chart st evs d1
                (filter_data d1 fc1 ui.filterVals1) none names ui c hcs]
              simp
          | some d2 =>
              cases h2 : selectbox d2.cols ui.filterCol2 with
              | none => simp [afterLoad, h1, h2]
              | some fc2 =>
                  simp only [afterLoad, h1, h2]
                  rw [displayAndChart_eq_of_chart st evs d1
                    (filter_data d1 fc1 ui.filterVals1)
                    (some (filter_data d2 fc2 ui.filterVals2)) names ui c hcs]
                  simp

/-- No rerun whatsoever aborts with the chart-column error. -/
theorem main_crashed_ne_chart [DecidableEq α] (st : SessionState)
    (files : List (UploadedFile α)) (ui : UserInput α) :
    (main st files ui).crashed ≠ some Crash.chartNoColumn := by
  rcases files with _ | ⟨f1, _ | ⟨f2, _ | ⟨f3, rest⟩⟩⟩
  · simp [main]
  · rw [show main st [f1] ui = afterLoad (load_data st f1).1 [(load_data st f1).2.2]
        (load_data st f1).2.1 none [f1.name] ui from rfl]
    exact afterLoad_crashed_ne_chart _ _ _ _ _ _
  · rw [show main st [f1, f2] ui
        = afterLoad (load_data (load_data st f1).1 f2).1
            [(load_data st f1).2.2, (load_data (load_data st f1).1 f2).2.2]
            (load_data st f1).2.1 (load_data (load_data st f1).1 f2).2.1
            [f1.name, f2.name] ui from rfl]
    exact afterLoad_crashed_ne_chart _ _ _ _ _ _
  · simp [main]

/-! ## Run-level claims -/

/-- C5: uploading more than two files produces exactly the warning,
loads no table (the session state is untouched), and skips all further
processing of that run. -/
theorem too_many_files_warn [DecidableEq α] (st : SessionState)
    (files : List (UploadedFile α)) (ui : UserInput α) (h : 2 < files.length) :
    main st files ui = ⟨[Event.warnTooMany], st, none⟩ := by
  rcases files with _ | ⟨f1, _ | ⟨f2, _ | ⟨f3, rest⟩⟩⟩
  · simp only [List.length_nil] at h; omega
  · simp only [List.length_cons, List.length_nil] at h; omega
  · simp only [List.length_cons, List.length_nil] at h; omega
  · rfl

/-- Witness for C5: three files yield the warning and nothing else. -/
theorem too_many_files_warn_witness :
    main (SessionState.mk false none) [fileBad, fileBad, fileBad] uiW
      = ⟨[Event.warnTooMany], SessionState.mk false none, none⟩ :=
  too_many_files_warn (SessionState.mk false none) [fileBad, fileBad, fileBad] uiW
    (by decide)

/-- C3 (refuting the no-crash part): a single uploaded file whose parse
fails is caught inside `load_data` — the error message is shown, the
flag is set to `false` and no table is returned — but `main` then reads
`df1.columns` on the unset table (app.py line 112) and the rerun aborts
with an `AttributeError` instead of continuing.  Only when the failing
file is the second of two does the run continue (second conjunct). -/
theorem first_file_parse_failure_crashes :
    main (SessionState.mk false none) [fileBad] uiW
      = ⟨[Event.loadError "bad.csv"], SessionState.mk false none, some Crash.noTable⟩ ∧
    (main (SessionState.mk false none) [fileW, fileBad] uiW).crashed = none := by
  exact ⟨rfl, rfl⟩

/-- C7 (amended): the chart dispatch itself (app.py lines 158-179) has
no guard for a chart type whose required columns have no selection:
handed a table with no columns, the column selectboxes return no
selection, the missing column is passed straight into the chart call
and that stage aborts with the unguarded runtime error.  No full run
reaches the dispatch in this state (see the counterexample below): the
filter section aborts first on the same empty column list. -/
theorem chart_columns_unselected_unguarded :
    (displayAndChart (SessionState.mk false none) [] dfEmpty dfEmpty none
      ["empty.csv"] uiW).crashed = some Crash.chartNoColumn := by
  rfl

/-- C7 (counterexample): the claim "for some run, selecting a chart
type whose required columns have not yet been chosen raises an
unguarded runtime error" is false of the program: for every cell type,
session state, upload list and widget state, the rerun never aborts at
the chart dispatch.  The only state that could leave a chart column
unselected is an empty column list, and on that list the filter
selectbox (app.py line 112) already returns no column and `df[None]`
(line 34) aborts the rerun before the chart section. -/
theorem no_run_chart_column_crash :
    (∃ (α : Type) (inst : DecidableEq α) (st : SessionState)
      (files : List (UploadedFile α)) (ui : UserInput α),
      (@main α inst st files ui).crashed = some Crash.chartNoColumn) = False :=
  eq_false fun ⟨α, inst, st, files, ui, hc⟩ =>
    @main_crashed_ne_chart α inst st files ui hc

/-- C6 (counterexample): a rerun that starts from a session state whose
`file_loaded` flag is already `true` — i.e. a user interaction after a
successful load — still parses the uploaded file again: it performs one
parse attempt instead of the zero the claim requires, because no table
is kept in session state. -/
theorem rerun_reparses :
    0 < parseCount (main (SessionState.mk true (some "aqi.csv")) [fileW] uiW) := by
  decide

/-- C6 (amended): every rerun with files present re-parses each uploaded
file from scratch — one parse attempt per file — whatever the session
state retained from earlier runs; only the flag and file name live in
session state, never a table. -/
theorem every_run_reparses [DecidableEq α] (st : SessionState)
    (files : List (UploadedFile α)) (ui : UserInput α)
    (h1 : files ≠ []) (h2 : files.length ≤ 2) :
    parseCount (main st files ui) = files.length := by
  rcases files with _ | ⟨f1, _ | ⟨f2, _ | ⟨f3, rest⟩⟩⟩
  · exact absurd rfl h1
  · rw [show main st [f1] ui = afterLoad (load_data st f1).1 [(load_data st f1).2.2]
          (load_data st f1).2.1 none [f1.name] ui from rfl,
        afterLoad_parseCount]
    cases hp : f1.parsed <;> simp [load_data, hp, loadCountL, isLoadEvent]
  · rw [show main st [f1, f2] ui
        = afterLoad (load_data (load_data st f1).1 f2).1
            [(load_data st f1).2.2, (load_data (load_data st f1).1 f2).2.2]
            (load_data st f1).2.1 (load_data (load_data st f1).1 f2).2.1
            [f1.name, f2.name] ui from rfl,
        afterLoad_parseCount]
    cases hp1 : f1.parsed <;> cases hp2 : f2.parsed <;>
      simp [load_data, hp1, hp2, loadCountL, isLoadEvent]
  · simp only [List.length_cons] at h2
    omega

/-- Witness for the amended C6: a rerun from an already-loaded session
with two files performs two parse attempts. -/
theorem every_run_reparses_witness :
    parseCount (main (SessionState.mk true (some "aqi.csv")) [fileW, fileW2] uiW) = 2 :=
  every_run_reparses (SessionState.mk true (some "aqi.csv")) [fileW, fileW2] uiW
    (by decide) (by decide)

/-- C4 (counterexample): the claim quantifies over every run with at
least one file loaded, but the run whose first file fails to parse and
whose second file loads is such a run — the success message is shown
and the session flag ends `true` — and it renders zero charts: it
aborts on the unset first table (app.py line 112) before the chart
section. -/
theorem second_file_loaded_no_chart :
    main (SessionState.mk false none) [fileBad, fileW] uiW
      = ⟨[Event.loadError "bad.csv", Event.loadSuccess "aqi.csv"],
         SessionState.mk true (some "aqi.csv"), some Crash.noTable⟩ ∧
    chartEvents (main (SessionState.mk false none) [fileBad, fileW] uiW) = [] := by
  exact ⟨rfl, rfl⟩

/-- C4 (amended): in every run whose *first* file loads into a table
(and whose second file, if any, fails or loads into a table — a parsed
CSV always has at least one column), exactly one chart is rendered; its
kind is the selected one of the five, with two column arguments for
Bar, Line and Scatter and one for Pie and Histogram.  When the first
file fails to load, the run aborts before the chart section even if the
second file loaded. -/
theorem one_chart_per_run [DecidableEq α] (st : SessionState)
    (files : List (UploadedFile α)) (ui : UserInput α) (h : goodFiles files) :
    ∃ c, chartEvents (main st files ui) = [c] ∧
      chartKind c = ui.chartType ∧
      (chartCols c).length = chartArity ui.chartType := by
  rcases files with _ | ⟨f1, _ | ⟨f2, _ | ⟨f3, rest⟩⟩⟩
  · exact (h : False).elim
  · obtain ⟨d1, hp, hc1⟩ := (h : ∃ d1, f1.parsed = some d1 ∧ d1.cols ≠ [])
    have h1a : (load_data st f1).1 = ⟨true, some f1.name⟩ := by simp [load_data, hp]
    have h1b : (load_data st f1).2.1 = some d1 := by simp [load_data, hp]
    have h1c : (load_data st f1).2.2 = Event.loadSuccess f1.name := by
      simp [load_data, hp]
    rw [show main st [f1] ui = afterLoad (load_data st f1).1 [(load_data st f1).2.2]
          (load_data st f1).2.1 none [f1.name] ui from rfl, h1a, h1b, h1c]
    obtain ⟨fc1, c, hsel, hce, hkind, hdf, hlen, hmem⟩ :=
      afterLoad_chart ⟨true, some f1.name⟩ [Event.loadSuccess f1.name] d1 none
        [f1.name] ui rfl hc1 (Or.inl rfl)
    exact ⟨c, hce, hkind, hlen⟩
  · obtain ⟨⟨d1, hp1, hc1⟩, h2⟩ :=
      (h : (∃ d1, f1.parsed = some d1 ∧ d1.cols ≠ []) ∧
        (f2.parsed = none ∨ ∃ d2, f2.parsed = some d2 ∧ d2.cols ≠ []))
    have h1a : (load_data st f1).1 = ⟨true, some f1.name⟩ := by simp [load_data, hp1]
    have h1b : (load_data st f1).2.1 = some d1 := by simp [load_data, hp1]
    have h1c : (load_data st f1).2.2 = Event.loadSuccess f1.name := by
      simp [load_data, hp1]
    rw [show main st [f1, f2] ui
        = afterLoad (load_data (load_data st f1).1 f2).1
            [(load_data st f1).2.2, (load_data (load_data st f1).1 f2).2.2]
            (load_data st f1).2.1 (load_data (load_data st f1).1 f2).2.1
            [f1.name, f2.name] ui from rfl, h1a, h1b, h1c]
    rcases h2 with hp2 | ⟨d2, hp2, hc2⟩
    · have h2a : (load_data ⟨true, some f1.name⟩ f2).1 = ⟨false, some f1.name⟩ := by
        simp [load_data, hp2]
      have h2b : (load_data ⟨true, some f1.name⟩ f2).2.1 = none := by
        simp [load_data, hp2]
      have h2c : (load_data ⟨true, some f1.name⟩ f2).2.2 = Event.loadError f2.name := by
        simp [load_data, hp2]
      rw [h2a, h2b, h2c]
      obtain ⟨fc1, c, hsel, hce, hkind, hdf, hlen, hmem⟩ :=
        afterLoad_chart ⟨false, some f1.name⟩
          [Event.loadSuccess f1.name, Event.loadError f2.name] d1 none
          [f1.name, f2.name] ui rfl hc1 (Or.inl rfl)
      exact ⟨c, hce, hkind, hlen⟩
    · have h2a : (load_data ⟨true, some f1.name⟩ f2).1 = ⟨true, some f2.name⟩ := by
        simp [load_data, hp2]
      have h2b : (load_data ⟨true, some f1.name⟩ f2).2.1 = some d2 := by
        simp [load_data, hp2]
      have h2c : (load_data ⟨true, some f1.name⟩ f2).2.2
          = Event.loadSuccess f2.name := by
        simp [load_data, hp2]
      rw [h2a, h2b, h2c]
      obtain ⟨fc1, c, hsel, hce, hkind, hdf, hlen, hmem⟩ :=
        afterLoad_chart ⟨true, some f2.name⟩
          [Event.loadSuccess f1.name, Event.loadSuccess f2.name] d1 (some d2)
          [f1.name, f2.name] ui rfl hc1 (Or.inr ⟨d2, rfl, hc2⟩)
      exact ⟨c, hce, hkind, hlen⟩
  · exact (h : False).elim

/-- Witness for C4: one good file, one rendered chart of the selected
kind with the matching number of columns. -/
theorem one_chart_per_run_witness :
    ∃ c, chartEvents (main (SessionState.mk false none) [fileW] uiW) = [c] ∧
      chartKind c = uiW.chartType ∧
      (chartCols c).length = chartArity uiW.chartType :=
  one_chart_per_run (SessionState.mk false none) [fileW] uiW ⟨dfW, rfl, by decide⟩

/-- C10: in a two-file run with both tables loaded, the single rendered
chart is over the first file's filtered table, and every chart column
comes from the first file's (unfiltered) column list — the second file's
data is never charted. -/
theorem chart_first_file_only [DecidableEq α] (st : SessionState)
    (f1 f2 : UploadedFile α) (d1 d2 : DataFrame α) (ui : UserInput α)
    (hp1 : f1.parsed = some d1) (hc1 : d1.cols ≠ [])
    (hp2 : f2.parsed = some d2) (hc2 : d2.cols ≠ []) :
    ∃ fc1 c, selectbox d1.cols ui.filterCol1 = some fc1 ∧
      chartEvents (main st [f1, f2] ui) = [c] ∧
      chartDF c = filter_data d1 fc1 ui.filterVals1 ∧
      ∀ s ∈ chartCols c, s ∈ d1.cols := by
  have h1a : (load_data st f1).1 = ⟨true, some f1.name⟩ := by simp [load_data, hp1]
  have h1b : (load_data st f1).2.1 = some d1 := by simp [load_data, hp1]
  have h1c : (load_data st f1).2.2 = Event.loadSuccess f1.name := by
    simp [load_data, hp1]
  have h2a : (load_data ⟨true, some f1.name⟩ f2).1 = ⟨true, some f2.name⟩ := by
    simp [load_data, hp2]
  have h2b : (load_data ⟨true, some f1.name⟩ f2).2.1 = some d2 := by
    simp [load_data, hp2]
  have h2c : (load_data ⟨true, some f1.name⟩ f2).2.2 = Event.loadSuccess f2.name := by
    simp [load_data, hp2]
  rw [show main st [f1, f2] ui
      = afterLoad (load_data (load_data st f1).1 f2).1
          [(load_data st f1).2.2, (load_data (load_data st f1).1 f2).2.2]
          (load_data st f1).2.1 (load_data (load_data st f1).1 f2).2.1
          [f1.name, f2.name] ui from rfl, h1a, h1b, h1c, h2a, h2b, h2c]
  obtain ⟨fc1, c, hsel, hce, hkind, hdf, hlen, hmem⟩ :=
    afterLoad_chart ⟨true, some f2.name⟩
      [Event.loadSuccess f1.name, Event.loadSuccess f2.name] d1 (some d2)
      [f1.name, f2.name] ui rfl hc1 (Or.inr ⟨d2, rfl, hc2⟩)
  exact ⟨fc1, c, hsel, hce, hdf, hmem⟩

/-- Witness for C10: with `fileW` and `fileW2` uploaded, the chart is
over `dfW` filtered (here: unfiltered, empty selection) and its columns
come from `dfW`. -/
theorem chart_first_file_only_witness :
    ∃ fc1 c, selectbox dfW.cols uiW.filterCol1 = some fc1 ∧
      chartEvents (main (SessionState.mk false none) [fileW, fileW2] uiW) = [c] ∧
      chartDF c = filter_data dfW fc1 uiW.filterVals1 ∧
      ∀ s ∈ chartCols c, s ∈ dfW.cols :=
  chart_first_file_only (SessionState.mk false none) fileW fileW2 dfW dfW2 uiW
    rfl (by decide) rfl (by decide)

end AQI
